import Mathlib

/-!
# EcoGuide — verification of the progress-recording flow

Shallow embedding of the dual-write progress-recording flow of the EcoGuide
backend (`server/index.js` and its variants): the `PUT /api/usuarios/:id/progreso`
handler, the `verificarToken` middleware, the `POST /api/clasificacion/registrar`
handler with its stored-procedure call, and the primary-store (PostgreSQL) /
secondary-store (MongoDB) state they act on.

Conventions of the embedding:
* JavaScript `undefined` in a request body field is `Option.none`; a field that
  is present is `Option.some`.
* PostgreSQL `NULL` in a nullable column is `Option.none`.
* SQL `integer` columns are `Int`; `real` columns are `Rat` (exact arithmetic).
* Each `pool.query(...)` call is one atomic step against the primary store;
  the handler is the sequential composition of its steps, and concurrency is
  modelled as arbitrary interleavings of the atomic steps of two requests.
* A store-level failure of a query (lost connection, constraint violation not
  otherwise modelled) is injected through explicit `insertFault`/`updateFault`
  booleans; the foreign-key failure of the `INSERT INTO historial` is modelled
  intrinsically from the referenced rows.
-/

/-- A row of the `usuarios` relation (primary store). `puntos` is an integer
column and `co2_evitado` a real column; both are written by the progress
endpoint with `UPDATE usuarios SET puntos = $1, co2_evitado = $2 WHERE id = $3`. -/
structure Usuario where
  id : Nat
  nombre : String
  email : String
  puntos : Int
  co2_evitado : Rat
deriving DecidableEq

/-- A row of the `residuos` catalog relation. Only its key and its CO2 weight
matter to this flow (the weight is read by the stored-procedure variant). -/
structure Residuo where
  id : Nat
  co2_valor : Rat
deriving DecidableEq

/-- A row of the `historial` relation, written by
`INSERT INTO historial (usuario_id, residuo_id, acierto, fecha) VALUES ($1,$2,$3,NOW())`.
`residuo_id` and `acierto` are `Option` because the handler forwards the request
body fields unvalidated, and an absent (`undefined`) field reaches the store as
SQL `NULL`. `fecha` is an abstract day stamp. -/
structure HistRow where
  usuario_id : Nat
  residuo_id : Option Nat
  acierto : Option Bool
  fecha : Nat
deriving DecidableEq

/-- Modelled from the spec: the primary-store schema (DDL) is not under `src/`;
§6 of the spec fixes a `usuarios` relation, a `historial` relation "with a
foreign key to the user and to the catalog item", and the `residuos` catalog.
The state is the contents of those three relations. -/
structure PGState where
  usuarios : List Usuario
  residuos : List Residuo
  historial : List HistRow
deriving DecidableEq

/-- A document of the MongoDB `LogPartida` collection (secondary store).
`es_correcto` mirrors the raw body field, `puntos_obtenidos` is the fixed
derived value `fue_acierto ? 10 : 0`. -/
structure LogPartida where
  usuario_id : Nat
  residuo_id : Option Nat
  es_correcto : Option Bool
  puntos_obtenidos : Int
  fecha : Nat
deriving DecidableEq

/-- The secondary store: the `LogPartida` collection, in insertion order. -/
abbrev MongoState := List LogPartida

/-- JSON response bodies produced by the handlers under study. -/
inductive RespBody where
  /-- `{ success: true }` -/
  | successTrue
  /-- `{ error: msg }` -/
  | errorMsg (msg : String)
  /-- `{ success: false, error: msg }` -/
  | successFalseError (msg : String)
  /-- `{ success: true, mensaje, datos: { puntos, co2_evitado, clasificaciones_hoy } }` -/
  | registrarOk (mensaje : String) (puntos : Int) (co2 : Rat) (clasificaciones_hoy : Nat)
deriving DecidableEq

/-- An HTTP response: status code plus JSON body. -/
structure HttpResponse where
  status : Nat
  body : RespBody
deriving DecidableEq

/-- `true` iff a `usuarios` row with this id exists. -/
def userExists (s : PGState) (uid : Nat) : Bool :=
  s.usuarios.any fun u => u.id == uid

/-- `true` iff a `residuos` row with this id exists. -/
def residuoExists (s : PGState) (rid : Nat) : Bool :=
  s.residuos.any fun r => r.id == rid

/-- Modelled from the spec: the foreign-key checks of the `historial` insert
(the DDL is not under `src/`; spec §6 states the foreign keys, §4.1 that a
violation is raised by the store). A `NULL` value in a nullable referencing
column passes the constraint, per standard SQL semantics. -/
def fkOk (s : PGState) (uid : Nat) (rid : Option Nat) : Bool :=
  userExists s uid &&
    (match rid with
     | none => true
     | some r => residuoExists s r)

/-- One atomic `INSERT INTO historial (usuario_id, residuo_id, acierto, fecha)
VALUES ($1,$2,$3,NOW())` against the primary store: appends the row, or fails
(returns `none`) when a foreign-key constraint is violated. -/
def insertHistorial (s : PGState) (uid : Nat) (rid : Option Nat) (ac : Option Bool)
    (t : Nat) : Option PGState :=
  if fkOk s uid rid then
    some { s with historial := s.historial ++ [⟨uid, rid, ac, t⟩] }
  else
    none

/-- Per-row effect of `UPDATE usuarios SET puntos = $1, co2_evitado = $2
WHERE id = $3`: a matching row has its aggregate columns overwritten with the
supplied values (not added), any other row is untouched. -/
def updRow (uid : Nat) (p : Int) (c : Rat) (u : Usuario) : Usuario :=
  if u.id == uid then { u with puntos := p, co2_evitado := c } else u

/-- One atomic `UPDATE usuarios SET puntos = $1, co2_evitado = $2 WHERE id = $3`:
applies `updRow` to every row (like SQL, it succeeds affecting zero rows when
no row matches). -/
def updateUsuarios (s : PGState) (uid : Nat) (p : Int) (c : Rat) : PGState :=
  { s with usuarios := s.usuarios.map (updRow uid p c) }

/-- The `puntos` of the first `usuarios` row with the given id (0 if absent),
as read by `SELECT puntos FROM usuarios WHERE id = $1`. -/
def puntosOf (s : PGState) (uid : Nat) : Int :=
  ((s.usuarios.find? fun u => u.id == uid).map Usuario.puntos).getD 0

/-- The `co2_evitado` of the first `usuarios` row with the given id (0 if absent). -/
def co2Of (s : PGState) (uid : Nat) : Rat :=
  ((s.usuarios.find? fun u => u.id == uid).map Usuario.co2_evitado).getD 0

/-- Request body of `PUT /api/usuarios/:id/progreso`:
`{ puntos, co2_evitado, residuo_id, fue_acierto }`. The fields that any claim
exercises as absent are `Option`; `puntos` and `co2_evitado` are taken present. -/
structure PutProgresoBody where
  puntos : Int
  co2_evitado : Rat
  residuo_id : Option Nat
  fue_acierto : Option Bool
deriving DecidableEq

/-- Everything a request execution produces: the final primary-store state,
the final secondary-store state, the HTTP response, and whether the
fire-and-forget Mongo mirror write was dispatched. -/
structure Outcome where
  pg : PGState
  mongo : MongoState
  resp : HttpResponse
  mirrorDispatched : Bool
deriving DecidableEq

/-- The `LogPartida` document the progreso handler dispatches: carries the raw
body fields and `puntos_obtenidos: fue_acierto ? 10 : 0` (JavaScript `undefined`
is falsy, hence `Option.getD false`). -/
def progresoLog (pathId : Nat) (b : PutProgresoBody) (t : Nat) : LogPartida :=
  ⟨pathId, b.residuo_id, b.fue_acierto, if b.fue_acierto.getD false then 10 else 0, t⟩

/-- The `PUT /api/usuarios/:id/progreso` handler body
(`server/index.js` lines 136–166; identical logic in both unnamed server
variants): awaits the `historial` insert, then awaits the `usuarios` update,
then dispatches the Mongo mirror without awaiting it, then answers
`{ success: true }`; any thrown query error is caught and answered as
status 500 `{ error: "Error al guardar progreso" }` with no rollback.
`insertFault`/`updateFault` inject store-level failures of the respective
query; `mongoOk` is secondary-store availability (an unavailable mirror write
is caught by `.catch` and only logged). -/
def putProgreso (s : PGState) (mongo : MongoState) (pathId : Nat)
    (b : PutProgresoBody) (t : Nat) (insertFault updateFault mongoOk : Bool) :
    Outcome :=
  match if insertFault then none
        else insertHistorial s pathId b.residuo_id b.fue_acierto t with
  | none => ⟨s, mongo, ⟨500, .errorMsg "Error al guardar progreso"⟩, false⟩
  | some s1 =>
    if updateFault then
      ⟨s1, mongo, ⟨500, .errorMsg "Error al guardar progreso"⟩, false⟩
    else
      let s2 := updateUsuarios s1 pathId b.puntos b.co2_evitado
      let mongo2 := if mongoOk then mongo ++ [progresoLog pathId b t] else mongo
      ⟨s2, mongo2, ⟨200, .successTrue⟩, true⟩

/-- The `Authorization` header as seen by `verificarToken`: absent, present but
not verifying against the JWT secret, or verifying with a decoded payload
`{ id }`. -/
inductive AuthHeader where
  | missing
  | invalid
  | valid (decodedId : Nat)
deriving DecidableEq

/-- The protected route `PUT /api/usuarios/:id/progreso` of the variant server
(part_003 lines 56–71 and 257–285): `verificarToken` answers 401 when the
header is absent and 403 when `jwt.verify` throws; otherwise it stores the
decoded payload in `req.usuario` and calls the handler — which never reads
`req.usuario` nor compares the decoded id with the `:id` path parameter. -/
def putProgresoRoute (auth : AuthHeader) (s : PGState) (mongo : MongoState)
    (pathId : Nat) (b : PutProgresoBody) (t : Nat)
    (insertFault updateFault mongoOk : Bool) : Outcome :=
  match auth with
  | .missing => ⟨s, mongo, ⟨401, .errorMsg "Token requerido"⟩, false⟩
  | .invalid => ⟨s, mongo, ⟨403, .errorMsg "Token inválido"⟩, false⟩
  | .valid _ => putProgreso s mongo pathId b t insertFault updateFault mongoOk

/-! ## The server-computed variant: `POST /api/clasificacion/registrar` -/

/-- Request body of `POST /api/clasificacion/registrar`:
`{ usuario_id, residuo_id, fue_acierto }`, every field possibly absent. -/
structure RegistrarBody where
  usuario_id : Option Nat
  residuo_id : Option Nat
  fue_acierto : Option Bool
deriving DecidableEq

/-- JavaScript truthiness test `!x` for a numeric-or-absent field: `undefined`
is falsy and so is the number `0`. -/
def jsFalsyNum : Option Nat → Bool
  | none => true
  | some n => n == 0

/-- The validation guard of the registrar handler (part_002 line 471):
`if (!usuario_id || !residuo_id || fue_acierto === undefined)`. -/
def registrarMissingParams (b : RegistrarBody) : Bool :=
  jsFalsyNum b.usuario_id || jsFalsyNum b.residuo_id || b.fue_acierto == none

/-- The row returned by `SELECT * FROM sp_registrar_clasificacion($1,$2,$3)`. -/
structure SpResult where
  exito : Bool
  mensaje : String
  nuevos_puntos : Int
  nuevo_co2 : Rat
  clasificaciones_hoy : Nat
deriving DecidableEq

/-- Number of `historial` rows of this user stamped with day `t`
(`COUNT(*) ... WHERE usuario_id = $1 AND fecha::date = CURRENT_DATE`). -/
def countHoy (s : PGState) (uid : Nat) (t : Nat) : Nat :=
  (s.historial.filter fun h => h.usuario_id == uid && h.fecha == t).length

/-- The CO2 weight of a catalog item (0 if absent). -/
def co2ValorOf (s : PGState) (rid : Nat) : Rat :=
  ((s.residuos.find? fun r => r.id == rid).map Residuo.co2_valor).getD 0

/-- Modelled from the spec: the PostgreSQL procedure `sp_registrar_clasificacion`
is not under `src/` (only its SQL caller is). Per spec §4.1 strategy 2 it is one
atomic unit that re-validates `userId`/`itemId` existence, computes the reward
deterministically (fixed `+10` points per correct attempt, `0` otherwise, and a
difficulty-weighted CO2 value looked up from the Item), **adds** it to the
user's aggregate, inserts the Attempt row, computes the day's attempt count,
and returns the new aggregate plus today's count; on a failed validation it
reports failure and writes nothing. -/
def sp_registrar_clasificacion (s : PGState) (uid rid : Nat) (ac : Bool)
    (t : Nat) : PGState × SpResult :=
  if !userExists s uid then
    (s, ⟨false, "Usuario no existe", 0, 0, 0⟩)
  else if !residuoExists s rid then
    (s, ⟨false, "Residuo no existe", 0, 0, 0⟩)
  else
    let pts : Int := if ac then 10 else 0
    let co2 : Rat := if ac then co2ValorOf s rid else 0
    let s1 : PGState := { s with
      usuarios := s.usuarios.map fun u =>
        if u.id == uid then
          { u with puntos := u.puntos + pts, co2_evitado := u.co2_evitado + co2 }
        else u }
    let s2 : PGState :=
      { s1 with historial := s1.historial ++ [⟨uid, some rid, some ac, t⟩] }
    (s2, ⟨true, "Clasificación registrada", puntosOf s2 uid, co2Of s2 uid,
          countHoy s2 uid t⟩)

/-- The `POST /api/clasificacion/registrar` handler (part_002 lines 467–518):
rejects with status 400 and the missing-parameters message when any body field
is JS-falsy (`fue_acierto` alone checked with `=== undefined`), otherwise runs
the stored procedure; on `exito` it fire-and-forgets the Mongo mirror and
answers 200 with the returned aggregate, else it answers 400 with the
procedure's message. -/
def registrarClasificacion (s : PGState) (mongo : MongoState)
    (b : RegistrarBody) (t : Nat) (mongoOk : Bool) : Outcome :=
  if registrarMissingParams b then
    ⟨s, mongo,
      ⟨400, .successFalseError "Faltan parámetros: usuario_id, residuo_id, fue_acierto"⟩,
      false⟩
  else
    let uid := b.usuario_id.getD 0
    let rid := b.residuo_id.getD 0
    let ac := b.fue_acierto.getD false
    let (s2, r) := sp_registrar_clasificacion s uid rid ac t
    if r.exito then
      let log : LogPartida := ⟨uid, some rid, some ac, if ac then 10 else 0, t⟩
      let mongo2 := if mongoOk then mongo ++ [log] else mongo
      ⟨s2, mongo2,
        ⟨200, .registrarOk r.mensaje r.nuevos_puntos r.nuevo_co2 r.clasificaciones_hoy⟩,
        true⟩
    else
      ⟨s2, mongo, ⟨400, .successFalseError r.mensaje⟩, false⟩

/-! ## Concurrency: interleavings of atomic primary-store steps -/

/-- One atomic primary-store query of the progreso flow. -/
inductive DbOp where
  | ins (uid : Nat) (rid : Option Nat) (ac : Option Bool) (t : Nat)
  | upd (uid : Nat) (p : Int) (c : Rat)
deriving DecidableEq

/-- Effect of one atomic query on the primary store (a failed insert — foreign
key violation — leaves the store unchanged). -/
def applyOp (s : PGState) : DbOp → PGState
  | .ins uid rid ac t => (insertHistorial s uid rid ac t).getD s
  | .upd uid p c => updateUsuarios s uid p c

/-- Run a schedule of atomic queries in order. -/
def execOps (s : PGState) (l : List DbOp) : PGState :=
  l.foldl applyOp s

/-- The two atomic queries one `PUT /api/usuarios/:id/progreso` request issues,
in program order: the `historial` insert, then the `usuarios` overwrite. -/
def reqOps (pathId : Nat) (b : PutProgresoBody) (t : Nat) : List DbOp :=
  [.ins pathId b.residuo_id b.fue_acierto t, .upd pathId b.puntos b.co2_evitado]

/-- Worker for `interleavings`, structurally recursive on a fuel bound so the
kernel can evaluate it; the fuel never runs out when it starts at the combined
length. -/
def interleavingsAux : Nat → List DbOp → List DbOp → List (List DbOp)
  | _, [], ys => [ys]
  | _, x :: xs, [] => [x :: xs]
  | 0, x :: xs, y :: ys => [x :: xs ++ y :: ys]
  | n + 1, x :: xs, y :: ys =>
      (interleavingsAux n xs (y :: ys)).map (x :: ·) ++
        (interleavingsAux n (x :: xs) ys).map (y :: ·)

/-- All interleavings of two sequences of atomic steps: each request's steps
keep their program order, the scheduler is free otherwise. -/
def interleavings (xs ys : List DbOp) : List (List DbOp) :=
  interleavingsAux (xs.length + ys.length) xs ys

/-! ## Concrete fixtures (the spec's worked example: user 7, item 3) -/

/-- User 7 with current aggregate `{puntos: 20, co2_evitado: 1.0}`. -/
def userSeven : Usuario := ⟨7, "Ana", "ana@eco.example", 20, 1⟩

/-- Primary store holding user 7, catalog item 3 (CO2 weight 0.5) and an empty
`historial`. -/
def baseState : PGState := ⟨[userSeven], [⟨3, mkRat 1 2⟩], []⟩

/-- The spec's example body:
`{puntos: 10, co2_evitado: 0.5, residuo_id: 3, fue_acierto: true}`. -/
def exampleBody : PutProgresoBody := ⟨10, mkRat 1 2, some 3, some true⟩

/-- A body carrying smaller aggregate values than user 7's current state. -/
def decBody : PutProgresoBody := ⟨5, mkRat 1 4, some 3, some true⟩

/-- The example body with `fue_acierto` omitted. -/
def noAciertoBody : PutProgresoBody := ⟨10, mkRat 1 2, some 3, none⟩

/-- A body whose `residuo_id` references no catalog item. -/
def badItemBody : PutProgresoBody := ⟨10, mkRat 1 2, some 999, some true⟩

/-- First concurrent client's body: it read `puntos = 20` and submits the
client-computed new total `20 + 10 = 30`. -/
def reqA : PutProgresoBody := ⟨30, mkRat 3 2, some 3, some true⟩

/-- Second concurrent client's body: it also read `puntos = 20` and submits
the client-computed new total `20 + 5 = 25`. -/
def reqB : PutProgresoBody := ⟨25, mkRat 5 4, some 3, some true⟩

/-- A schedule in which both requests insert before either updates. -/
def lostUpdateSchedule : List DbOp :=
  [.ins 7 (some 3) (some true) 0, .ins 7 (some 3) (some true) 0,
   .upd 7 30 (mkRat 3 2), .upd 7 25 (mkRat 5 4)]

/-! ## Theorems -/

/-- Claim C1 (counterexample): the two primary-store writes of
`PUT /api/usuarios/:id/progreso` are not atomic. When the `historial` insert
succeeds and the `usuarios` update then fails, the handler answers 500 but the
inserted Attempt row remains: the Attempt count grew by 1 with no aggregate
update, contradicting "if either write fails neither is applied". -/
theorem progreso_torn_write_counterexample :
    (putProgreso baseState [] 7 exampleBody 0 false true true).pg.historial.length =
        baseState.historial.length + 1 ∧
    (putProgreso baseState [] 7 exampleBody 0 false true true).pg.usuarios =
        baseState.usuarios ∧
    (putProgreso baseState [] 7 exampleBody 0 false true true).resp.status = 500 := by
  decide

/-- Claim C1 (amended): the handler issues the Attempt insert and the aggregate
update as two separate sequential queries with no transaction. If the insert
fails nothing is applied; if both succeed the Attempt count grows by exactly 1
together with the aggregate write; but if the update fails after a successful
insert, the Attempt row persists while the aggregate is untouched and the
caller gets a 500 — a partial application the claimed atomicity rules out. -/
theorem progreso_sequential_not_atomic (s : PGState) (mongo : MongoState)
    (pathId : Nat) (b : PutProgresoBody) (t : Nat) (mOk : Bool) :
    (∀ insF updF, insF = true ∨ fkOk s pathId b.residuo_id = false →
      (putProgreso s mongo pathId b t insF updF mOk).pg = s ∧
      (putProgreso s mongo pathId b t insF updF mOk).resp.status = 500) ∧
    (fkOk s pathId b.residuo_id = true →
      (putProgreso s mongo pathId b t false true mOk).pg =
        { s with historial :=
            s.historial ++ [⟨pathId, b.residuo_id, b.fue_acierto, t⟩] } ∧
      (putProgreso s mongo pathId b t false true mOk).resp.status = 500) ∧
    (fkOk s pathId b.residuo_id = true →
      (putProgreso s mongo pathId b t false false mOk).pg.historial.length =
          s.historial.length + 1 ∧
      (putProgreso s mongo pathId b t false false mOk).resp = ⟨200, .successTrue⟩) := by
  refine ⟨?_, ?_, ?_⟩
  · rintro insF updF (rfl | hfk)
    · simp [putProgreso]
    · simp [putProgreso, insertHistorial, hfk]
  · intro hfk
    simp [putProgreso, insertHistorial, hfk]
  · intro hfk
    simp [putProgreso, insertHistorial, hfk, updateUsuarios]

/-- Claim C1 (witness): the amended theorem instantiated at the worked example:
with a healthy store both writes land and the Attempt count grows by one. -/
theorem progreso_sequential_not_atomic_witness :
    (putProgreso baseState [] 7 exampleBody 0 false false true).pg.historial.length =
        baseState.historial.length + 1 ∧
    (putProgreso baseState [] 7 exampleBody 0 false false true).resp =
      ⟨200, .successTrue⟩ :=
  (progreso_sequential_not_atomic baseState [] 7 exampleBody 0 true).2.2 (by decide)

/-- Claim C2 (counterexample): the spec's worked example fails on the code. The
handler's `UPDATE usuarios SET puntos = $1, co2_evitado = $2` overwrites the
aggregate with the supplied values instead of adding them: for user 7 at
`{puntos: 20, co2_evitado: 1.0}` and body `{puntos: 10, co2_evitado: 0.5}`, the
call answers `{success: true}` but leaves `{puntos: 10, co2_evitado: 0.5}`,
not the claimed `{puntos: 30, co2_evitado: 1.5}`. -/
theorem progreso_example_counterexample :
    (putProgreso baseState [] 7 exampleBody 0 false false true).resp =
      ⟨200, .successTrue⟩ ∧
    puntosOf (putProgreso baseState [] 7 exampleBody 0 false false true).pg 7 = 10 ∧
    puntosOf (putProgreso baseState [] 7 exampleBody 0 false false true).pg 7 ≠ 30 ∧
    co2Of (putProgreso baseState [] 7 exampleBody 0 false false true).pg 7 = mkRat 1 2 ∧
    co2Of (putProgreso baseState [] 7 exampleBody 0 false false true).pg 7 ≠ mkRat 3 2 := by
  decide

/-- Claim C2 (amended): the successful call answers `{success: true}`, appends
exactly the Attempt row `(user=7, item=3, correct=true)`, and **sets** the
aggregate to the supplied values, leaving `{puntos: 10, co2_evitado: 0.5}`. -/
theorem progreso_example_overwrites :
    putProgreso baseState [] 7 exampleBody 0 false false true =
      ⟨⟨[⟨7, "Ana", "ana@eco.example", 10, mkRat 1 2⟩], baseState.residuos,
        [⟨7, some 3, some true, 0⟩]⟩,
       [⟨7, some 3, some true, 10, 0⟩], ⟨200, .successTrue⟩, true⟩ := by
  decide

/-- Claim C3 (counterexample): the aggregate fields are not monotonically
non-decreasing. Because the endpoint overwrites them with caller-supplied
values, submitting `{puntos: 5, co2_evitado: 0.25}` for user 7 (currently at
`{puntos: 20, co2_evitado: 1.0}`) decrements both fields. -/
theorem progreso_decrements_counterexample :
    puntosOf baseState 7 = 20 ∧
    puntosOf (putProgreso baseState [] 7 decBody 0 false false true).pg 7 = 5 ∧
    puntosOf (putProgreso baseState [] 7 decBody 0 false false true).pg 7 <
      puntosOf baseState 7 ∧
    co2Of (putProgreso baseState [] 7 decBody 0 false false true).pg 7 = mkRat 1 4 ∧
    co2Of (putProgreso baseState [] 7 decBody 0 false false true).pg 7 <
      co2Of baseState 7 := by
  decide

/-- `updRow` never changes the key column. -/
theorem updRow_id (pid : Nat) (p : Int) (c : Rat) (u : Usuario) :
    (updRow pid p c u).id = u.id := by
  unfold updRow; split <;> rfl

/-- `find?` by id commutes with the row-wise aggregate update, because the
update preserves every row's id. -/
theorem find?_map_updRow (us : List Usuario) (pid uid : Nat) (p : Int) (c : Rat) :
    (us.map (updRow pid p c)).find? (fun u => u.id == uid) =
      (us.find? fun u => u.id == uid).map (updRow pid p c) := by
  induction us with
  | nil => rfl
  | cons u us ih =>
    simp only [List.map_cons, List.find?_cons, updRow_id]
    cases h : u.id == uid <;> simp [h, ih]

/-- The `usuarios` relation after the aggregate update. -/
theorem updateUsuarios_eq_map (s : PGState) (pid : Nat) (p : Int) (c : Rat) :
    (updateUsuarios s pid p c).usuarios = s.usuarios.map (updRow pid p c) := rfl

/-- `puntosOf` reads only the `usuarios` relation. -/
theorem puntosOf_congr_usuarios (x y : PGState) (h : x.usuarios = y.usuarios)
    (uid : Nat) : puntosOf x uid = puntosOf y uid := by
  unfold puntosOf; rw [h]

/-- `co2Of` reads only the `usuarios` relation. -/
theorem co2Of_congr_usuarios (x y : PGState) (h : x.usuarios = y.usuarios)
    (uid : Nat) : co2Of x uid = co2Of y uid := by
  unfold co2Of; rw [h]

/-- If the supplied total dominates the updated user's current `puntos`, the
overwriting update decreases no user's `puntos`. -/
theorem puntosOf_updateUsuarios_le (s : PGState) (pid uid : Nat) (p : Int) (c : Rat)
    (hp : puntosOf s pid ≤ p) :
    puntosOf s uid ≤ puntosOf (updateUsuarios s pid p c) uid := by
  unfold puntosOf updateUsuarios
  simp only [find?_map_updRow]
  cases hf : s.usuarios.find? fun u => u.id == uid with
  | none => simp
  | some u =>
    simp only [Option.map_some', Option.getD_some]
    cases hid : u.id == pid with
    | false => simp [updRow, hid]
    | true =>
      have huid : u.id = uid := by simpa using List.find?_some hf
      have hpid : u.id = pid := by simpa using hid
      have e : pid = uid := hpid.symm.trans huid
      subst e
      unfold puntosOf at hp
      rw [hf] at hp
      simpa [updRow, hid] using hp

/-- If the supplied total dominates the updated user's current `co2_evitado`,
the overwriting update decreases no user's `co2_evitado`. -/
theorem co2Of_updateUsuarios_le (s : PGState) (pid uid : Nat) (p : Int) (c : Rat)
    (hc : co2Of s pid ≤ c) :
    co2Of s uid ≤ co2Of (updateUsuarios s pid p c) uid := by
  unfold co2Of updateUsuarios
  simp only [find?_map_updRow]
  cases hf : s.usuarios.find? fun u => u.id == uid with
  | none => simp
  | some u =>
    simp only [Option.map_some', Option.getD_some]
    cases hid : u.id == pid with
    | false => simp [updRow, hid]
    | true =>
      have huid : u.id = uid := by simpa using List.find?_some hf
      have hpid : u.id = pid := by simpa using hid
      have e : pid = uid := hpid.symm.trans huid
      subst e
      unfold co2Of at hc
      rw [hf] at hc
      simpa [updRow, hid] using hc

/-- Claim C3 (amended): the endpoint overwrites the aggregates with the
caller-supplied totals, so they are non-decreasing only conditionally: when
the supplied values dominate the target user's current values, no user's
`puntos` or `co2_evitado` decreases, whatever the execution path; a caller
supplying smaller totals decrements them. -/
theorem progreso_monotone_when_caller_monotone (s : PGState) (mongo : MongoState)
    (pathId : Nat) (b : PutProgresoBody) (t : Nat) (insF updF mOk : Bool)
    (hp : puntosOf s pathId ≤ b.puntos) (hc : co2Of s pathId ≤ b.co2_evitado)
    (uid : Nat) :
    puntosOf s uid ≤ puntosOf (putProgreso s mongo pathId b t insF updF mOk).pg uid ∧
    co2Of s uid ≤ co2Of (putProgreso s mongo pathId b t insF updF mOk).pg uid := by
  unfold putProgreso
  cases insF with
  | true => simp
  | false =>
    simp only [Bool.false_eq_true, if_false]
    cases hi : insertHistorial s pathId b.residuo_id b.fue_acierto t with
    | none => simp
    | some s1 =>
      have hus : s1.usuarios = s.usuarios := by
        unfold insertHistorial at hi
        split at hi
        · cases hi; rfl
        · cases hi
      cases updF with
      | true =>
        exact ⟨le_of_eq (puntosOf_congr_usuarios s s1 hus.symm uid),
          le_of_eq (co2Of_congr_usuarios s s1 hus.symm uid)⟩
      | false =>
        constructor
        · have h1 : puntosOf (updateUsuarios s1 pathId b.puntos b.co2_evitado) uid =
              puntosOf (updateUsuarios s pathId b.puntos b.co2_evitado) uid := by
            apply puntosOf_congr_usuarios
            rw [updateUsuarios_eq_map, updateUsuarios_eq_map, hus]
          show puntosOf s uid ≤
            puntosOf (updateUsuarios s1 pathId b.puntos b.co2_evitado) uid
          rw [h1]
          exact puntosOf_updateUsuarios_le s pathId uid _ _ hp
        · have h1 : co2Of (updateUsuarios s1 pathId b.puntos b.co2_evitado) uid =
              co2Of (updateUsuarios s pathId b.puntos b.co2_evitado) uid := by
            apply co2Of_congr_usuarios
            rw [updateUsuarios_eq_map, updateUsuarios_eq_map, hus]
          show co2Of s uid ≤
            co2Of (updateUsuarios s1 pathId b.puntos b.co2_evitado) uid
          rw [h1]
          exact co2Of_updateUsuarios_le s pathId uid _ _ hc

/-- Claim C3 (witness): the amended theorem at user 7 submitting totals equal
to the current aggregate. -/
theorem progreso_monotone_when_caller_monotone_witness :
    puntosOf baseState 7 ≤
      puntosOf (putProgreso baseState [] 7 ⟨20, 1, some 3, some true⟩ 0
        false false true).pg 7 ∧
    co2Of baseState 7 ≤
      co2Of (putProgreso baseState [] 7 ⟨20, 1, some 3, some true⟩ 0
        false false true).pg 7 :=
  progreso_monotone_when_caller_monotone baseState [] 7 ⟨20, 1, some 3, some true⟩
    0 false false true (by decide) (le_of_eq rfl) 7

/-- Claim C4 (counterexample): a caller authenticated as user 1 calls
`PUT /api/usuarios/7/progreso`. The claim demands an Authorization failure with
no store mutation; the code accepts the request, mutates the store and answers
`{success: true}`, because `verificarToken` never compares the decoded token
id with the `:id` path parameter. -/
theorem progreso_auth_mismatch_counterexample :
    (putProgresoRoute (.valid 1) baseState [] 7 exampleBody 0 false false true).resp =
      ⟨200, .successTrue⟩ ∧
    (putProgresoRoute (.valid 1) baseState [] 7 exampleBody 0 false false true).pg ≠
      baseState := by
  decide

/-- Claim C4 (amended): `verificarToken` rejects only an absent header (401,
no mutation) or an unverifiable token (403, no mutation); any validly signed
token is accepted regardless of the identity it carries — the handler's outcome
is independent of the decoded id, so an identity mismatch is never rejected. -/
theorem route_checks_only_token_validity (s : PGState) (mongo : MongoState)
    (pathId : Nat) (b : PutProgresoBody) (t : Nat) (insF updF mOk : Bool) :
    (∀ id1 id2, putProgresoRoute (.valid id1) s mongo pathId b t insF updF mOk =
        putProgresoRoute (.valid id2) s mongo pathId b t insF updF mOk) ∧
    putProgresoRoute .missing s mongo pathId b t insF updF mOk =
      ⟨s, mongo, ⟨401, .errorMsg "Token requerido"⟩, false⟩ ∧
    putProgresoRoute .invalid s mongo pathId b t insF updF mOk =
      ⟨s, mongo, ⟨403, .errorMsg "Token inválido"⟩, false⟩ ∧
    ∀ i, putProgresoRoute (.valid i) s mongo pathId b t insF updF mOk =
      putProgreso s mongo pathId b t insF updF mOk :=
  ⟨fun _ _ => rfl, rfl, rfl, fun _ => rfl⟩

/-- Claim C5 (counterexample): a body omitting `fue_acierto` is not rejected.
The handler does no validation: it answers `{success: true}`, inserts an
Attempt row with `acierto = NULL`, and overwrites the aggregate — the claim
demanded a Validation error, no Attempt row, and an unchanged aggregate. -/
theorem progreso_missing_fue_acierto_counterexample :
    (putProgreso baseState [] 7 noAciertoBody 0 false false true).resp =
      ⟨200, .successTrue⟩ ∧
    (putProgreso baseState [] 7 noAciertoBody 0 false false true).pg.historial =
      [⟨7, some 3, none, 0⟩] ∧
    puntosOf (putProgreso baseState [] 7 noAciertoBody 0 false false true).pg 7 = 10 := by
  decide

/-- Claim C5 (amended): `PUT /api/usuarios/:id/progreso` performs no presence
validation of `fue_acierto` (that check exists only in
`POST /api/clasificacion/registrar`): an absent value reaches the store as
`NULL`, the Attempt row is appended with `acierto = NULL`, the aggregate is
overwritten, and the call succeeds. -/
theorem progreso_no_validation_of_fue_acierto (s : PGState) (mongo : MongoState)
    (pathId : Nat) (b : PutProgresoBody) (t : Nat) (mOk : Bool)
    (hb : b.fue_acierto = none) (hfk : fkOk s pathId b.residuo_id = true) :
    (putProgreso s mongo pathId b t false false mOk).resp = ⟨200, .successTrue⟩ ∧
    (putProgreso s mongo pathId b t false false mOk).pg.historial =
      s.historial ++ [⟨pathId, b.residuo_id, none, t⟩] := by
  simp [putProgreso, insertHistorial, hfk, hb, updateUsuarios]

/-- Claim C5 (witness): the amended theorem at the concrete store and body. -/
theorem progreso_no_validation_of_fue_acierto_witness :
    (putProgreso baseState [] 7 noAciertoBody 0 false false true).resp =
      ⟨200, .successTrue⟩ ∧
    (putProgreso baseState [] 7 noAciertoBody 0 false false true).pg.historial =
      baseState.historial ++ [⟨7, some 3, none, 0⟩] :=
  progreso_no_validation_of_fue_acierto baseState [] 7 noAciertoBody 0 true rfl
    (by decide)

/-- Claim C8 (counterexample): with `residuo_id = 999` referencing no catalog
item, the foreign-key violation is caught by the handler's blanket `catch` and
answered as status **500** `{ error: "Error al guardar progreso" }` — a server
fault, not the claimed 4xx Validation/NotFound — though indeed with no store
mutation. -/
theorem progreso_unknown_item_counterexample :
    residuoExists baseState 999 = false ∧
    (putProgreso baseState [] 7 badItemBody 0 false false true).resp.status = 500 ∧
    ¬((putProgreso baseState [] 7 badItemBody 0 false false true).resp.status < 500) ∧
    (putProgreso baseState [] 7 badItemBody 0 false false true).pg = baseState := by
  decide

/-- Claim C8 (amended): a `residuo_id` referencing no existing Item makes the
`historial` insert fail on its foreign key, so no store mutation occurs — but
the error surfaces as status 500 `{ error: "Error al guardar progreso" }`
(a Persistence-style server fault), not as a 4xx Validation/NotFound. -/
theorem progreso_fk_violation_is_500 (s : PGState) (mongo : MongoState)
    (pathId : Nat) (b : PutProgresoBody) (t : Nat) (r : Nat) (mOk : Bool)
    (hr : b.residuo_id = some r) (hno : residuoExists s r = false) :
    putProgreso s mongo pathId b t false false mOk =
      ⟨s, mongo, ⟨500, .errorMsg "Error al guardar progreso"⟩, false⟩ := by
  simp [putProgreso, insertHistorial, fkOk, hr, hno]

/-- Claim C8 (witness): the amended theorem at the concrete store and body. -/
theorem progreso_fk_violation_is_500_witness :
    putProgreso baseState [] 7 badItemBody 0 false false true =
      ⟨baseState, [], ⟨500, .errorMsg "Error al guardar progreso"⟩, false⟩ :=
  progreso_fk_violation_is_500 baseState [] 7 badItemBody 0 999 true rfl (by decide)

/-- Claim C6 (confirmed): the Mongo mirror write is fire-and-forget — the
handler never awaits it and `.catch` swallows its failure. For every request
and every primary-store outcome, the HTTP response, the final primary-store
state and the dispatch decision are identical whether the secondary store is
available (`mongoOk = true`) or unavailable (`mongoOk = false`); only the
secondary store's own contents differ between the two runs. -/
theorem progreso_mirror_failure_invisible (s : PGState) (mongo : MongoState)
    (pathId : Nat) (b : PutProgresoBody) (t : Nat) (insF updF : Bool) :
    (putProgreso s mongo pathId b t insF updF true).resp =
      (putProgreso s mongo pathId b t insF updF false).resp ∧
    (putProgreso s mongo pathId b t insF updF true).pg =
      (putProgreso s mongo pathId b t insF updF false).pg ∧
    (putProgreso s mongo pathId b t insF updF true).mirrorDispatched =
      (putProgreso s mongo pathId b t insF updF false).mirrorDispatched := by
  unfold putProgreso
  cases hi : (if insF then none
              else insertHistorial s pathId b.residuo_id b.fue_acierto t) <;>
    cases updF <;> simp

/-- Claim C7 (counterexample): two concurrent submissions for user 7, each
client having read `puntos = 20` and submitted its own client-computed total
(30 and 25). Under the schedule that runs both inserts first, both Attempt
rows land but the final aggregate is 25 — the last writer's value — not the
claimed sum of both deltas `20 + 10 + 5 = 35`: a lost update. -/
theorem concurrent_progreso_lost_update_counterexample :
    lostUpdateSchedule ∈ interleavings (reqOps 7 reqA 0) (reqOps 7 reqB 0) ∧
    (execOps baseState lostUpdateSchedule).historial.length = 2 ∧
    puntosOf (execOps baseState lostUpdateSchedule) 7 = 25 ∧
    puntosOf baseState 7 + 10 + 5 = 35 ∧
    puntosOf (execOps baseState lostUpdateSchedule) 7 ≠ 35 := by
  decide

/-- Claim C7 (amended): under every interleaving of the two requests' atomic
queries, each submission does produce its own Attempt row (the count grows by
two), but because the aggregate update overwrites rather than adds, the final
aggregate is whichever supplied total was written last (30 or 25), never the
sum of both deltas — the endpoint loses concurrent updates. -/
theorem concurrent_progreso_last_writer_wins :
    ∀ l ∈ interleavings (reqOps 7 reqA 0) (reqOps 7 reqB 0),
      (execOps baseState l).historial.length = 2 ∧
        (puntosOf (execOps baseState l) 7 = 30 ∨
          puntosOf (execOps baseState l) 7 = 25) := by
  decide

/-- Claim C7 (witness): the amended theorem applied to the all-inserts-first
schedule. -/
theorem concurrent_progreso_last_writer_wins_witness :
    (execOps baseState lostUpdateSchedule).historial.length = 2 ∧
      (puntosOf (execOps baseState lostUpdateSchedule) 7 = 30 ∨
        puntosOf (execOps baseState lostUpdateSchedule) 7 = 25) :=
  concurrent_progreso_last_writer_wins lostUpdateSchedule (by decide)

/-- Claim C9 (confirmed): the Mongo mirror is dispatched exactly when both
primary-store writes completed successfully — never after a failed insert and
never after a failed update — and when it is not dispatched the secondary
store is untouched: the event order is submitted → committed → (mirrored |
mirror-dropped), never mirrored before committed. -/
theorem progreso_mirror_only_after_commit (s : PGState) (mongo : MongoState)
    (pathId : Nat) (b : PutProgresoBody) (t : Nat) (insF updF mOk : Bool) :
    ((putProgreso s mongo pathId b t insF updF mOk).mirrorDispatched = true ↔
      insF = false ∧
        (insertHistorial s pathId b.residuo_id b.fue_acierto t).isSome = true ∧
        updF = false) ∧
    ((putProgreso s mongo pathId b t insF updF mOk).mirrorDispatched = false →
      (putProgreso s mongo pathId b t insF updF mOk).mongo = mongo) := by
  unfold putProgreso
  cases insF <;>
    [cases hi : insertHistorial s pathId b.residuo_id b.fue_acierto t; skip] <;>
    cases updF <;> simp_all

/-- Claim C9 (witness): at the worked example with a failed update, the mirror
is not dispatched and the secondary store is untouched. -/
theorem progreso_mirror_only_after_commit_witness :
    (putProgreso baseState [] 7 exampleBody 0 false true true).mongo = [] :=
  (progreso_mirror_only_after_commit baseState [] 7 exampleBody 0 false true
    true).2 (by decide)

/-- Claim C10 (confirmed): `POST /api/clasificacion/registrar` tests
`usuario_id` and `residuo_id` with JavaScript falsiness, so the value `0` is
rejected exactly like an absent field: the handler answers 400 with
`{ success: false, error: "Faltan parámetros: …" }` and performs no store
write. `fue_acierto`, checked with `=== undefined`, accepts `false`: such a
body always gets past the missing-parameters rejection. -/
theorem registrar_falsiness_validation :
    (∀ (s : PGState) (mongo : MongoState) (b : RegistrarBody) (t : Nat) (mOk : Bool),
      b.usuario_id = some 0 ∨ b.usuario_id = none ∨
          b.residuo_id = some 0 ∨ b.residuo_id = none →
        registrarClasificacion s mongo b t mOk =
          ⟨s, mongo,
            ⟨400, .successFalseError
              "Faltan parámetros: usuario_id, residuo_id, fue_acierto"⟩,
            false⟩) ∧
    (∀ (s : PGState) (mongo : MongoState) (b : RegistrarBody) (t : Nat) (mOk : Bool),
      jsFalsyNum b.usuario_id = false → jsFalsyNum b.residuo_id = false →
        b.fue_acierto = some false →
        (registrarClasificacion s mongo b t mOk).resp.body ≠
          .successFalseError "Faltan parámetros: usuario_id, residuo_id, fue_acierto") := by
  constructor
  · rintro s mongo b t mOk (h | h | h | h) <;>
      simp [registrarClasificacion, registrarMissingParams, jsFalsyNum, h]
  · intro s mongo b t mOk hu hr hf
    have hmiss : registrarMissingParams b = false := by
      simp [registrarMissingParams, hu, hr, hf]
    unfold registrarClasificacion
    rw [hmiss]
    simp only [Bool.false_eq_true, if_false]
    unfold sp_registrar_clasificacion
    split
    · simp
    · split
      · simp
      · simp

/-- Claim C10 (witness): a body with `usuario_id = 0` is rejected with the
missing-parameters 400 and no write; a body with `fue_acierto = false` is not
rejected by that check. -/
theorem registrar_falsiness_validation_witness :
    registrarClasificacion baseState [] ⟨some 0, some 3, some true⟩ 0 true =
      ⟨baseState, [],
        ⟨400, .successFalseError
          "Faltan parámetros: usuario_id, residuo_id, fue_acierto"⟩,
        false⟩ ∧
    (registrarClasificacion baseState [] ⟨some 7, some 3, some false⟩ 0 true).resp.body ≠
      .successFalseError "Faltan parámetros: usuario_id, residuo_id, fue_acierto" :=
  ⟨registrar_falsiness_validation.1 baseState [] ⟨some 0, some 3, some true⟩ 0 true
      (Or.inl rfl),
    registrar_falsiness_validation.2 baseState [] ⟨some 7, some 3, some false⟩ 0 true
      rfl rfl rfl⟩
